import Mathlib

/-!
# NovaVista FreeGaze — verification of the gaze-signal-processing core

Shallow embedding of the repository's gaze pipeline:

* `OneEuroFilter` (src/utils/smoothing.js): the 1€-style adaptive low-pass
  filter, embedded over `JNum`, an idealized model of JavaScript IEEE-754
  numbers (exact rational payloads, with `Infinity`, `-Infinity` and `NaN`
  modelled explicitly; rounding and overflow are not modelled).
* `extractEyeFeatures` / `areEyeFeaturesValid` / `averageFeatures`
  (src/core/featureExtraction.js), over a linear ordered field so that the
  calibration layer can run on `ℚ` while landmark geometry (which needs
  square roots) runs on `ℝ`.
* `CalibrationManager` (src/core/calibration.js).
* `DwellDetector` (src/utils/dwellTimer.js), over `ℝ` with JavaScript's
  `undefined`/`null` behaviour modelled through `Option`.

Console logging, DOM callbacks and `localStorage` persistence are side
effects with no bearing on the claims and are not modelled.
-/

/-! ## A model of JavaScript numbers

JavaScript numbers are IEEE-754 doubles.  `JNum` models them as exact
rationals extended with the three special values; arithmetic follows the
IEEE rules for specials (NaN propagation, signed infinities, division by
zero) and is exact on finite values (rounding and overflow of doubles are
not modelled — no claim depends on them).  Signed zero is not modelled:
the source only ever divides by a zero arising as `t - t`, which is `+0`. -/

inductive JNum where
  | fin (q : ℚ)
  | inf
  | ninf
  | nan
deriving DecidableEq

namespace JNum

def neg : JNum → JNum
  | fin q => fin (-q)
  | inf => ninf
  | ninf => inf
  | nan => nan

def add : JNum → JNum → JNum
  | nan, _ => nan
  | _, nan => nan
  | fin a, fin b => fin (a + b)
  | fin _, inf => inf
  | fin _, ninf => ninf
  | inf, fin _ => inf
  | ninf, fin _ => ninf
  | inf, inf => inf
  | ninf, ninf => ninf
  | inf, ninf => nan
  | ninf, inf => nan

def mul : JNum → JNum → JNum
  | nan, _ => nan
  | _, nan => nan
  | fin a, fin b => fin (a * b)
  | fin a, inf => if a = 0 then nan else if 0 < a then inf else ninf
  | fin a, ninf => if a = 0 then nan else if 0 < a then ninf else inf
  | inf, fin b => if b = 0 then nan else if 0 < b then inf else ninf
  | ninf, fin b => if b = 0 then nan else if 0 < b then ninf else inf
  | inf, inf => inf
  | ninf, ninf => inf
  | inf, ninf => ninf
  | ninf, inf => ninf

def div : JNum → JNum → JNum
  | nan, _ => nan
  | _, nan => nan
  | fin a, fin b =>
      if b = 0 then (if a = 0 then nan else if 0 < a then inf else ninf)
      else fin (a / b)
  | fin _, inf => fin 0
  | fin _, ninf => fin 0
  | inf, fin b => if 0 ≤ b then inf else ninf
  | ninf, fin b => if 0 ≤ b then ninf else inf
  | inf, inf => nan
  | inf, ninf => nan
  | ninf, inf => nan
  | ninf, ninf => nan

/-- `Math.abs`. -/
def jabs : JNum → JNum
  | fin q => fin |q|
  | inf => inf
  | ninf => inf
  | nan => nan

/-- The JavaScript `<` comparison: any comparison against `NaN` is false. -/
def jlt : JNum → JNum → Bool
  | fin a, fin b => decide (a < b)
  | fin _, inf => true
  | ninf, fin _ => true
  | ninf, inf => true
  | _, _ => false

instance : Neg JNum := ⟨neg⟩
instance : Add JNum := ⟨add⟩
instance : Mul JNum := ⟨mul⟩
instance : Div JNum := ⟨div⟩

/-- JavaScript `a - b` is `a + (-b)`, matching IEEE subtraction. -/
instance : Sub JNum := ⟨fun a b => add a (neg b)⟩

end JNum

/-- `Math.PI`: the IEEE double nearest π, written with the 17 significant
digits that round-trip to that double.  Claims only use its positivity. -/
def jsPI : JNum := JNum.fin (3.141592653589793 : ℚ)

set_option maxHeartbeats 1000000

/-! ## `OneEuroFilter` (src/utils/smoothing.js)

State fields and method bodies mirror the source constructor and methods.
`this.x = null` / `this.lasttime = null` become `Option` fields; JavaScript
coerces `null` to `0` in arithmetic, which `Option.getD 0` reproduces (the
only such access, `value - this.x`, happens in states where `x` is set). -/

structure OneEuroFilter where
  freq : JNum
  mincutoff : JNum
  beta : JNum
  dcutoff : JNum
  x : Option JNum
  dx : JNum
  lasttime : Option JNum

namespace OneEuroFilter

/-- The constructor `new OneEuroFilter(freq, mincutoff, beta, dcutoff)`. -/
def mk' (freq mincutoff beta dcutoff : JNum) : OneEuroFilter :=
  { freq := freq, mincutoff := mincutoff, beta := beta, dcutoff := dcutoff,
    x := none, dx := JNum.fin 0, lasttime := none }

/-- `lowpass(value, alpha)`: `alpha * value + (1 - alpha) * this.x`,
returning `value` unchanged while `this.x === null`. -/
def lowpass (s : OneEuroFilter) (value alpha : JNum) : JNum :=
  match s.x with
  | none => value
  | some xv => alpha * value + (JNum.fin 1 - alpha) * xv

/-- `alpha(cutoff)`: `tau = 1/(2π·cutoff)`, `te = 1/freq`, `1/(1 + tau/te)`. -/
def alpha (s : OneEuroFilter) (cutoff : JNum) : JNum :=
  let tau := JNum.fin 1 / (JNum.fin 2 * jsPI * cutoff)
  let te := JNum.fin 1 / s.freq
  JNum.fin 1 / (JNum.fin 1 + tau / te)

/-- `filter(value, timestamp)`: returns the filtered value and the mutated
filter state.  Statement order follows the source: `lasttime` is written
before the conditional `freq` update, the derivative is divided by `dt`
unconditionally, and both low-passes read the not-yet-updated `this.x`. -/
def filter (s : OneEuroFilter) (value timestamp : JNum) : JNum × OneEuroFilter :=
  match s.lasttime with
  | none =>
      (value, { s with x := some value, dx := JNum.fin 0, lasttime := some timestamp })
  | some lt =>
      let dt := (timestamp - lt) / JNum.fin 1000
      let s1 := { s with lasttime := some timestamp }
      let s2 := if JNum.jlt (JNum.fin 0) dt then { s1 with freq := JNum.fin 1 / dt } else s1
      let dvalue := (value - (s2.x.getD (JNum.fin 0))) / dt
      let edvalue := s2.lowpass dvalue (s2.alpha s2.dcutoff)
      let s3 := { s2 with dx := edvalue }
      let cutoff := s3.mincutoff + s3.beta * JNum.jabs edvalue
      let newx := s3.lowpass value (s3.alpha cutoff)
      (newx, { s3 with x := some newx })

/-- `reset()`. -/
def reset (s : OneEuroFilter) : OneEuroFilter :=
  { s with x := none, dx := JNum.fin 0, lasttime := none }

end OneEuroFilter

/-- Modelled from the spec (§4.4): the derivative-smoothing low-pass whose
"previous" term is the previously stored smoothed derivative —
`lowpass(x, α) = α·x + (1−α)·previous` applied to the raw derivative with
`previous` = the filter's stored `dx`.  Stated for comparison with what the
source's `filter` computes. -/
def derivLowpassSpec (alpha dvalue prevDx : JNum) : JNum :=
  alpha * dvalue + (JNum.fin 1 - alpha) * prevDx

/-! ## Claims C3 and C4 — the smoothing filter -/

/-- C3 (code bug): the spec says the smoothed derivative is the low-pass of
the raw derivative whose "previous" term is the previously stored smoothed
derivative (`this.dx`).  The source's `lowpass` reads `this.x` — the previous
filtered value — and `this.dx` is written but never read.  Failing input:
`new OneEuroFilter(30, 1, 0.007, 1)`, `filter(1, 0)` then `filter(1, 100)`:
the raw derivative is `0` and the previously stored derivative is `0`, so the
spec's smoothed derivative is `0`, but the code stores a nonzero `dx`
(`(1−α_d)·1`, inherited from the previous filtered *value* 1). -/
theorem oneEuroFilter_derivative_lowpass_uses_x_not_dx :
    let s0 : OneEuroFilter := OneEuroFilter.mk' (JNum.fin 30) (JNum.fin 1) (JNum.fin (7/1000)) (JNum.fin 1)
    let r1 := s0.filter (JNum.fin 1) (JNum.fin 0)
    let r2 := r1.2.filter (JNum.fin 1) (JNum.fin 100)
    derivLowpassSpec (r2.2.alpha r2.2.dcutoff) (JNum.fin 0) r1.2.dx = JNum.fin 0 ∧
      r2.2.dx = JNum.fin (5000000000000000 / 8141592653589793) ∧
      r2.2.dx ≠ JNum.fin 0 := by
  norm_num [OneEuroFilter.mk', OneEuroFilter.filter, OneEuroFilter.lowpass,
    OneEuroFilter.alpha, derivLowpassSpec, jsPI, JNum.jlt, JNum.jabs,
    JNum.add, JNum.mul, JNum.div, JNum.neg,
    HAdd.hAdd, HMul.hMul, HDiv.hDiv, HSub.hSub, Sub.sub, Add.add, Mul.mul, Div.div]

/-- C4 (code bug): the spec requires that a call with `dt ≤ 0` skips the
derivative update, reuses the prior derivative and divides by nothing.  The
source divides `(value − this.x) / dt` unconditionally: a second call with
the same timestamp and the same value computes `0/0 = NaN`, stores `NaN`
into both `x` and `dx`, and returns `NaN` — not a defined value, and the
filter state is poisoned for every later call. -/
theorem oneEuroFilter_zero_dt_divides_by_zero :
    let s0 : OneEuroFilter := OneEuroFilter.mk' (JNum.fin 30) (JNum.fin 1) (JNum.fin (7/1000)) (JNum.fin 1)
    let r1 := s0.filter (JNum.fin 100) (JNum.fin 1000)
    let r2 := r1.2.filter (JNum.fin 100) (JNum.fin 1000)
    r2.1 = JNum.nan ∧ r2.2.x = some JNum.nan ∧ r2.2.dx = JNum.nan := by
  norm_num [OneEuroFilter.mk', OneEuroFilter.filter, OneEuroFilter.lowpass,
    OneEuroFilter.alpha, jsPI, JNum.jlt, JNum.jabs,
    JNum.add, JNum.mul, JNum.div, JNum.neg,
    HAdd.hAdd, HMul.hMul, HDiv.hDiv, HSub.hSub, Sub.sub, Add.add, Mul.mul, Div.div]

/-! ## Feature objects (src/core/featureExtraction.js)

A feature object carries a `normalized` sub-object and the 8-entry feature
`vector`; the `raw` sub-object (visualization only, consumed by no claim) is
not modelled.  Fields of the `normalized` sub-object are `Option`s because
`CalibrationManager.completeCurrentPoint` builds feature objects whose
`normalized` is the empty object literal `{}` — present, but with every
field `undefined`. -/

structure EyeNormalized (α : Type) where
  leftIrisX : Option α
  leftIrisY : Option α
  leftAperture : Option α
  rightIrisX : Option α
  rightIrisY : Option α
  rightAperture : Option α
  irisSymmetry : Option α
  apertureSymmetry : Option α

structure EyeFeatures (α : Type) where
  normalized : Option (EyeNormalized α)
  vector : List α

/-- JavaScript `o < c` where `o` may be `undefined`: any comparison
involving `undefined` (NaN) is false. -/
def jsLt {α : Type} [LinearOrderedField α] (o : Option α) (c : α) : Bool :=
  match o with
  | none => false
  | some v => decide (v < c)

/-- JavaScript `o > c` where `o` may be `undefined`. -/
def jsGt {α : Type} [LinearOrderedField α] (o : Option α) (c : α) : Bool :=
  match o with
  | none => false
  | some v => decide (c < v)

/-- `Math.abs` on a possibly-`undefined` value (`Math.abs(undefined)` is NaN,
which every later comparison treats as false). -/
def jsAbsO {α : Type} [LinearOrderedField α] (o : Option α) : Option α :=
  o.map abs

/-- `areEyeFeaturesValid(features)` (featureExtraction.js lines 160-188):
three independent threshold checks on the `normalized` fields —
aperture floor `0.5`, offset-magnitude ceiling `5`, symmetry ceiling `3`. -/
def areEyeFeaturesValid {α : Type} [LinearOrderedField α]
    (features : Option (EyeFeatures α)) : Bool :=
  match features with
  | none => false
  | some f =>
    match f.normalized with
    | none => false
    | some n =>
      if jsLt n.leftAperture (1/2) || jsLt n.rightAperture (1/2) then false
      else if jsGt (jsAbsO n.leftIrisX) 5 || jsGt (jsAbsO n.leftIrisY) 5 ||
              jsGt (jsAbsO n.rightIrisX) 5 || jsGt (jsAbsO n.rightIrisY) 5 then false
      else if jsGt n.irisSymmetry 3 || jsGt n.apertureSymmetry 3 then false
      else true

/-- The result object of `averageFeatures`. -/
structure AveragedFeatures (α : Type) where
  normalized : EyeNormalized α
  vector : List α
  sampleCount : ℕ

/-- `averageFeatures(featureSamples)` (featureExtraction.js lines 213-249):
drop samples failing `areEyeFeaturesValid`, then average the remaining
vectors componentwise.  `validSamples[0].vector.map((_, index) => …)`
iterates over the indices of the first valid vector, which the range-map
renders; every vector in the repository's use is an 8-vector, so the
`getD _ 0` stand-in for JavaScript's out-of-range `undefined` is never hit
with unequal lengths.  The result's `normalized` is rebuilt from
`avgVector[0] … avgVector[7]` (`get?` models the possibly-missing index). -/
def averageFeatures {α : Type} [LinearOrderedField α]
    (featureSamples : List (EyeFeatures α)) : Option (AveragedFeatures α) :=
  if featureSamples.length = 0 then none
  else
    let validSamples := featureSamples.filter (fun f => areEyeFeaturesValid (some f))
    match validSamples with
    | [] => none
    | v0 :: _ =>
      let avgVector := (List.range v0.vector.length).map (fun index =>
        (validSamples.foldl (fun acc sample => acc + sample.vector.getD index 0) 0) /
          (validSamples.length : α))
      some { normalized :=
               ⟨avgVector.get? 0, avgVector.get? 1, avgVector.get? 2, avgVector.get? 3,
                avgVector.get? 4, avgVector.get? 5, avgVector.get? 6, avgVector.get? 7⟩,
             vector := avgVector,
             sampleCount := validSamples.length }

/-! ## `CalibrationManager` (src/core/calibration.js)

`localStorage` persistence (`saveToStorage`/`loadFromStorage`/`clear`) and
console logging are not modelled.  `Date.now()` is passed in explicitly. -/

structure CalibrationSample (α : Type) where
  features : List α
  targetX : α
  targetY : α
  timestamp : α

structure CalibrationPoint (α : Type) where
  targetX : α
  targetY : α
  features : List α
  sampleCount : ℕ

structure CalibrationManager (α : Type) where
  points : List (CalibrationPoint α)
  isCalibrating : Bool
  currentPointIndex : ℕ
  currentSamples : List (CalibrationSample α)

namespace CalibrationManager

/-- `constructor()`. -/
def init {α : Type} : CalibrationManager α :=
  { points := [], isCalibrating := false, currentPointIndex := 0, currentSamples := [] }

/-- `startCalibration()`. -/
def startCalibration {α : Type} (_s : CalibrationManager α) : CalibrationManager α :=
  { points := [], isCalibrating := true, currentPointIndex := 0, currentSamples := [] }

/-- `addSample(features, targetX, targetY)`: while calibrating, push
`{features: features.vector, targetX, targetY, timestamp: Date.now()}`. -/
def addSample {α : Type} (s : CalibrationManager α) (features : EyeFeatures α)
    (targetX targetY timestamp : α) : CalibrationManager α :=
  if s.isCalibrating = false then s
  else { s with currentSamples :=
          s.currentSamples ++ [⟨features.vector, targetX, targetY, timestamp⟩] }

/-- `completeCurrentPoint()` (calibration.js lines 51-89): fail on an empty
buffer; otherwise take the target position from the first sample, re-wrap
each buffered vector as `{vector: s.features, normalized: {}}`, average via
`averageFeatures`, and on success append the calibration point, clear the
buffer and advance the point index.  The boolean result is paired with the
mutated manager. -/
def completeCurrentPoint {α : Type} [LinearOrderedField α]
    (s : CalibrationManager α) : Bool × CalibrationManager α :=
  match s.currentSamples with
  | [] => (false, s)
  | first :: _ =>
    let featureSamples : List (EyeFeatures α) := s.currentSamples.map (fun smp =>
      { normalized := some ⟨none, none, none, none, none, none, none, none⟩,
        vector := smp.features })
    match averageFeatures featureSamples with
    | none => (false, s)
    | some avgFeatures =>
      (true, { s with
        points := s.points ++
          [⟨first.targetX, first.targetY, avgFeatures.vector, avgFeatures.sampleCount⟩],
        currentSamples := [],
        currentPointIndex := s.currentPointIndex + 1 })

/-- `finishCalibration()` (calibration.js lines 95-99): unconditionally stop
calibrating and return `this.points`. -/
def finishCalibration {α : Type} (s : CalibrationManager α) :
    List (CalibrationPoint α) × CalibrationManager α :=
  (s.points, { s with isCalibrating := false })

/-- `getCalibrationData()`. -/
def getCalibrationData {α : Type} (s : CalibrationManager α) : List (CalibrationPoint α) :=
  s.points

end CalibrationManager

/-- Modelled from the spec (§8, as amended for C2): the componentwise mean
over ALL buffered vectors — indexed over the first vector's length, entry
`i` being the sum of every vector's `i`-th entry divided by the number of
vectors. -/
def vectorMeanAll {α : Type} [LinearOrderedField α] (vs : List (List α)) : List α :=
  match vs with
  | [] => []
  | v0 :: _ =>
    (List.range v0.length).map (fun i => ((vs.map (fun v => v.getD i 0)).sum) / (vs.length : α))

lemma foldl_add_map {α β : Type} [AddCommMonoid α] (l : List β) (f : β → α) (a : α) :
    l.foldl (fun acc x => acc + f x) a = a + (l.map f).sum := by
  induction l generalizing a with
  | nil => simp
  | cons x xs ih => simp [ih, add_assoc]

lemma areEyeFeaturesValid_wrapped {α : Type} [LinearOrderedField α] (v : List α) :
    areEyeFeaturesValid (α := α)
      (some ⟨some ⟨none, none, none, none, none, none, none, none⟩, v⟩) = true := rfl

lemma completeCurrentPoint_cons {α : Type} [LinearOrderedField α]
    (s : CalibrationManager α) (first : CalibrationSample α)
    (rest : List (CalibrationSample α)) (h : s.currentSamples = first :: rest) :
    s.completeCurrentPoint =
      (true, { s with
        points := s.points ++ [⟨first.targetX, first.targetY,
          vectorMeanAll (s.currentSamples.map (fun smp => smp.features)),
          s.currentSamples.length⟩],
        currentSamples := [],
        currentPointIndex := s.currentPointIndex + 1 }) := by
  obtain ⟨pts, cal, idx, cur⟩ := s
  simp only at h
  subst h
  have hfilter :
      List.filter (fun f => areEyeFeaturesValid (some f))
        (({ normalized := some ⟨none, none, none, none, none, none, none, none⟩,
            vector := first.features } : EyeFeatures α) ::
          rest.map (fun smp =>
            ({ normalized := some ⟨none, none, none, none, none, none, none, none⟩,
               vector := smp.features } : EyeFeatures α))) =
      ({ normalized := some ⟨none, none, none, none, none, none, none, none⟩,
         vector := first.features } : EyeFeatures α) ::
        rest.map (fun smp =>
          ({ normalized := some ⟨none, none, none, none, none, none, none, none⟩,
             vector := smp.features } : EyeFeatures α)) := by
    refine List.filter_eq_self.mpr ?_
    intro f hf
    rcases List.mem_cons.mp hf with hf | hf
    · subst hf; rfl
    · rcases List.mem_map.mp hf with ⟨smp, _, rfl⟩
      rfl
  simp only [CalibrationManager.completeCurrentPoint, averageFeatures,
    List.length_map, List.length_cons, Nat.succ_ne_zero, if_false, List.map_cons]
  rw [hfilter]
  simp only [vectorMeanAll, List.map_cons, List.length_cons, List.length_map]
  refine Prod.ext rfl ?_
  simp only [CalibrationManager.mk.injEq, List.append_left_inj, List.cons.injEq]
  refine ⟨?_, trivial, trivial, trivial⟩
  congr 1
  congr 1
  congr 1
  refine List.map_congr_left ?_
  intro i _
  rw [foldl_add_map, zero_add]
  simp only [List.map_map, List.sum_cons, List.map_cons]
  rfl

/-! ## Claims C1, C2 and C10 — calibration aggregation -/

/-- C1 counterexample: a session with exactly one completed point (fewer
than the nine the claim requires) on which `finishCalibration` succeeds and
hands back the partial one-record sequence — there is no failure channel at
all (the return type is the record list itself). -/
theorem finishCalibration_accepts_incomplete_session :
    let p : CalibrationPoint ℚ := ⟨50, 50, [1, 1, 6, 1, 1, 6, 0, 0], 60⟩
    let s : CalibrationManager ℚ :=
      { points := [p], isCalibrating := true, currentPointIndex := 1, currentSamples := [] }
    s.points.length < 9 ∧ s.finishCalibration.1 = [p] :=
  ⟨by norm_num, rfl⟩

/-- C1 as amended: `finishCalibration` never fails and enforces no minimum
point count; whatever the number of completed points, it clears the
calibrating flag and returns the records collected so far, in completion
order.  A caller cannot distinguish an incomplete from a complete session
through its result. -/
theorem finishCalibration_unconditional :
    ∀ s : CalibrationManager ℚ,
      s.finishCalibration = (s.points, { s with isCalibrating := false }) :=
  fun _ => rfl

/-- C2 counterexample: a buffer with two samples, the first passing
`areEyeFeaturesValid` and the second failing it (closed-eye aperture `0`).
The claim requires `sampleCount = 1` (the valid count) and the mean over the
single valid vector; the code emits `sampleCount = 2` and the mean over both
vectors, because `completeCurrentPoint` re-wraps each sample with
`normalized: {}` and the validity check — which reads only `normalized`
fields — rejects nothing when every field is `undefined`. -/
theorem completeCurrentPoint_counts_invalid_samples :
    let fValid : EyeFeatures ℚ :=
      ⟨some ⟨some 4, some 0, some 6, some 4, some 0, some 6, some 0, some 0⟩,
       [4, 0, 6, 4, 0, 6, 0, 0]⟩
    let fInvalid : EyeFeatures ℚ :=
      ⟨some ⟨some 0, some 0, some 0, some 0, some 0, some 0, some 0, some 0⟩,
       [0, 0, 0, 0, 0, 0, 0, 0]⟩
    let s := ((CalibrationManager.init.startCalibration).addSample fValid 10 20 0).addSample
      fInvalid 10 20 1
    areEyeFeaturesValid (some fValid) = true ∧
    areEyeFeaturesValid (some fInvalid) = false ∧
    s.completeCurrentPoint.1 = true ∧
    s.completeCurrentPoint.2.points.map (fun p => p.sampleCount) = [2] ∧
    s.completeCurrentPoint.2.points.map (fun p => p.features) = [[2, 0, 3, 2, 0, 3, 0, 0]] := by
  refine ⟨?_, ?_, ?_, ?_, ?_⟩
  · norm_num [areEyeFeaturesValid, jsLt, jsGt, jsAbsO]
  · norm_num [areEyeFeaturesValid, jsLt, jsGt, jsAbsO]
  · rw [completeCurrentPoint_cons _ ⟨[4, 0, 6, 4, 0, 6, 0, 0], 10, 20, 0⟩
      [⟨[0, 0, 0, 0, 0, 0, 0, 0], 10, 20, 1⟩] rfl]
  · rw [completeCurrentPoint_cons _ ⟨[4, 0, 6, 4, 0, 6, 0, 0], 10, 20, 0⟩
      [⟨[0, 0, 0, 0, 0, 0, 0, 0], 10, 20, 1⟩] rfl]
    rfl
  · have hs : ((CalibrationManager.init.startCalibration.addSample
        ⟨some ⟨some 4, some 0, some 6, some 4, some 0, some 6, some 0, some 0⟩,
         [4, 0, 6, 4, 0, 6, 0, 0]⟩ 10 20 0).addSample
        ⟨some ⟨some 0, some 0, some 0, some 0, some 0, some 0, some 0, some 0⟩,
         [0, 0, 0, 0, 0, 0, 0, 0]⟩ 10 20 1 : CalibrationManager ℚ) =
        ⟨[], true, 0, [⟨[4, 0, 6, 4, 0, 6, 0, 0], 10, 20, 0⟩,
                       ⟨[0, 0, 0, 0, 0, 0, 0, 0], 10, 20, 1⟩]⟩ := rfl
    rw [hs, completeCurrentPoint_cons _ ⟨[4, 0, 6, 4, 0, 6, 0, 0], 10, 20, 0⟩
      [⟨[0, 0, 0, 0, 0, 0, 0, 0], 10, 20, 1⟩] rfl]
    norm_num [vectorMeanAll, List.range_succ, List.getD]

/-- C2 as amended: completing with an empty buffer returns failure and
leaves the manager unchanged; completing with `M ≥ 1` buffered samples
always succeeds, emitting a record whose `sampleCount` is the raw buffer
size `M` and whose feature vector is the componentwise mean of all `M`
vectors — the re-wrapped samples (`normalized: {}`) are never rejected by
the validity filter, so no sample is excluded. -/
theorem completeCurrentPoint_empty_fails_else_counts_all :
    (∀ s : CalibrationManager ℚ, s.currentSamples = [] → s.completeCurrentPoint = (false, s)) ∧
    (∀ (s : CalibrationManager ℚ) (first : CalibrationSample ℚ) rest,
      s.currentSamples = first :: rest →
      s.completeCurrentPoint.1 = true ∧
      ∃ rec : CalibrationPoint ℚ,
        s.completeCurrentPoint.2 =
          { s with points := s.points ++ [rec], currentSamples := [],
                   currentPointIndex := s.currentPointIndex + 1 } ∧
        rec.sampleCount = s.currentSamples.length ∧
        rec.features = vectorMeanAll (s.currentSamples.map (fun smp => smp.features))) := by
  constructor
  · intro s h
    obtain ⟨pts, cal, idx, cur⟩ := s
    simp only at h
    subst h
    rfl
  · intro s first rest h
    rw [completeCurrentPoint_cons s first rest h]
    exact ⟨rfl, _, rfl, rfl, rfl⟩

/-- C10 (confirmed): the emitted record's target coordinates come solely
from the first buffered sample — the statement quantifies over every tail
`rest`, so the `targetX`/`targetY` carried by later `addSample` calls never
reach the record. -/
theorem completeCurrentPoint_target_from_first_sample :
    ∀ (s : CalibrationManager ℚ) (first : CalibrationSample ℚ) rest,
      s.currentSamples = first :: rest →
      s.completeCurrentPoint.1 = true ∧
      ∃ rec : CalibrationPoint ℚ, s.completeCurrentPoint.2.points = s.points ++ [rec] ∧
        rec.targetX = first.targetX ∧ rec.targetY = first.targetY := by
  intro s first rest h
  rw [completeCurrentPoint_cons s first rest h]
  exact ⟨rfl, _, rfl, rfl, rfl⟩

/-- C10 witness: a two-sample buffer whose later sample carries different
target coordinates (90, 90); the record's targets are the first sample's
(10, 20). -/
theorem completeCurrentPoint_target_from_first_sample_witness :
    let s : CalibrationManager ℚ :=
      { points := [], isCalibrating := true, currentPointIndex := 0,
        currentSamples := [⟨[1, 1, 6, 1, 1, 6, 0, 0], 10, 20, 0⟩,
                           ⟨[3, 3, 6, 3, 3, 6, 0, 0], 90, 90, 1⟩] }
    s.completeCurrentPoint.1 = true ∧
    ∃ rec : CalibrationPoint ℚ, s.completeCurrentPoint.2.points = s.points ++ [rec] ∧
      rec.targetX = 10 ∧ rec.targetY = 20 :=
  completeCurrentPoint_target_from_first_sample _ _ _ rfl

/-! ## Landmark geometry and `extractEyeFeatures` (src/core/featureExtraction.js)

JavaScript numbers appearing in landmark geometry are modelled as `ℝ`
(exact arithmetic, no rounding).  The `raw` sub-object of the result — a
visualization aid consumed by no claim — and the `faceWidth` computed only
for it are not modelled.  The source's `try/catch` never fires for
well-typed landmark records, so the embedding is a total function. -/

structure Landmark where
  x : ℝ
  y : ℝ
  z : ℝ

/-- `distance(point1, point2)` (featureExtraction.js lines 19-24).  The
`(p.z || 0)` guard for a missing `z` is the identity here because the model
gives every landmark a `z`. -/
noncomputable def distance (point1 point2 : Landmark) : ℝ :=
  Real.sqrt ((point1.x - point2.x) * (point1.x - point2.x) +
    (point1.y - point2.y) * (point1.y - point2.y) +
    (point1.z - point2.z) * (point1.z - point2.z))

/-- `calculateCenter(points)` (featureExtraction.js lines 31-43). -/
noncomputable def calculateCenter (points : List Landmark) : Landmark :=
  let sum := points.foldl (fun acc p => ⟨acc.x + p.x, acc.y + p.y, acc.z + p.z⟩)
    (⟨0, 0, 0⟩ : Landmark)
  ⟨sum.x / points.length, sum.y / points.length, sum.z / points.length⟩

/-! `LANDMARK_INDICES` (src/core/faceDetection.js lines 147-167); the iris
boundary-point lists are not used by feature extraction. -/
namespace LANDMARK_INDICES

def LEFT_EYE_INNER : ℕ := 133
def LEFT_EYE_OUTER : ℕ := 33
def LEFT_EYE_TOP : ℕ := 159
def LEFT_EYE_BOTTOM : ℕ := 145
def RIGHT_EYE_INNER : ℕ := 362
def RIGHT_EYE_OUTER : ℕ := 263
def RIGHT_EYE_TOP : ℕ := 386
def RIGHT_EYE_BOTTOM : ℕ := 374
def LEFT_IRIS_CENTER : ℕ := 468
def RIGHT_IRIS_CENTER : ℕ := 473

end LANDMARK_INDICES

/-- `extractEyeFeatures(landmarks)` (featureExtraction.js lines 50-152):
guard on fewer than 478 landmarks, then compute iris offsets, eye widths
and apertures, normalize by eye width, apply the ×10 gain on the six
primary entries — and on the two symmetry entries only in `vector`, not in
`normalized`.  Indexing uses `getD` with a zero landmark; under the length
guard every access is in bounds.

Modelling boundary: over `ℝ`, division by a zero eye width (coincident
corner landmarks) yields `0`, whereas JavaScript yields `±Infinity`/`NaN`
features there — values every threshold comparison in
`areEyeFeaturesValid` treats as false, so JavaScript *accepts* such
features (exactly as it accepts the all-`undefined` `normalized` object,
`areEyeFeaturesValid_wrapped`), while the real-valued image would be
rejected.  Theorems relating validity to bounds on extracted features
therefore carry nonzero-eye-width hypotheses, confining them to the domain
on which this embedding agrees with the source. -/
noncomputable def extractEyeFeatures (landmarks : List Landmark) : Option (EyeFeatures ℝ) :=
  if landmarks.length < 478 then none
  else
    let get := fun i => landmarks.getD i ⟨0, 0, 0⟩
    let leftEyeInner := get LANDMARK_INDICES.LEFT_EYE_INNER
    let leftEyeOuter := get LANDMARK_INDICES.LEFT_EYE_OUTER
    let leftEyeTop := get LANDMARK_INDICES.LEFT_EYE_TOP
    let leftEyeBottom := get LANDMARK_INDICES.LEFT_EYE_BOTTOM
    let rightEyeInner := get LANDMARK_INDICES.RIGHT_EYE_INNER
    let rightEyeOuter := get LANDMARK_INDICES.RIGHT_EYE_OUTER
    let rightEyeTop := get LANDMARK_INDICES.RIGHT_EYE_TOP
    let rightEyeBottom := get LANDMARK_INDICES.RIGHT_EYE_BOTTOM
    let leftIrisCenter := get LANDMARK_INDICES.LEFT_IRIS_CENTER
    let rightIrisCenter := get LANDMARK_INDICES.RIGHT_IRIS_CENTER
    let leftEyeCenter := calculateCenter [leftEyeInner, leftEyeOuter]
    let rightEyeCenter := calculateCenter [rightEyeInner, rightEyeOuter]
    let leftIrisOffsetX := leftIrisCenter.x - leftEyeCenter.x
    let leftIrisOffsetY := leftIrisCenter.y - leftEyeCenter.y
    let rightIrisOffsetX := rightIrisCenter.x - rightEyeCenter.x
    let rightIrisOffsetY := rightIrisCenter.y - rightEyeCenter.y
    let leftEyeWidth := distance leftEyeInner leftEyeOuter
    let rightEyeWidth := distance rightEyeInner rightEyeOuter
    let leftEyeAperture := distance leftEyeTop leftEyeBottom
    let rightEyeAperture := distance rightEyeTop rightEyeBottom
    let leftIrisOffsetXNorm := leftIrisOffsetX / leftEyeWidth
    let leftIrisOffsetYNorm := leftIrisOffsetY / leftEyeWidth
    let rightIrisOffsetXNorm := rightIrisOffsetX / rightEyeWidth
    let rightIrisOffsetYNorm := rightIrisOffsetY / rightEyeWidth
    let leftApertureRatio := leftEyeAperture / leftEyeWidth
    let rightApertureRatio := rightEyeAperture / rightEyeWidth
    some
      { normalized := some
          ⟨some (leftIrisOffsetXNorm * 10), some (leftIrisOffsetYNorm * 10),
           some (leftApertureRatio * 10), some (rightIrisOffsetXNorm * 10),
           some (rightIrisOffsetYNorm * 10), some (rightApertureRatio * 10),
           some |leftIrisOffsetXNorm - rightIrisOffsetXNorm|,
           some |leftApertureRatio - rightApertureRatio|⟩,
        vector :=
          [leftIrisOffsetXNorm * 10, leftIrisOffsetYNorm * 10, leftApertureRatio * 10,
           rightIrisOffsetXNorm * 10, rightIrisOffsetYNorm * 10, rightApertureRatio * 10,
           |leftIrisOffsetXNorm - rightIrisOffsetXNorm| * 10,
           |leftApertureRatio - rightApertureRatio| * 10] }

/-! ## Claim C9 — short landmark input -/

/-- C9 (confirmed): for every landmark sequence with fewer than 478
entries, `extractEyeFeatures` returns absent.  The embedding is a total
function, so there is no exception path. -/
theorem extractEyeFeatures_short_input_absent :
    ∀ landmarks : List Landmark, landmarks.length < 478 →
      extractEyeFeatures landmarks = none := by
  intro landmarks h
  simp [extractEyeFeatures, h]

/-- C9 witness: the empty landmark list. -/
theorem extractEyeFeatures_short_input_absent_witness :
    ([] : List Landmark).length < 478 ∧ extractEyeFeatures [] = none :=
  ⟨by norm_num, extractEyeFeatures_short_input_absent [] (by norm_num)⟩

/-! ## Claim C5 — the validity rule on extracted features -/

/-- The landmark list of C5's counterexample: 478 landmarks, zero except at
the eye indices.  Eye widths are 1, both aperture ratios 0.06 (0.6
post-gain), iris offsets ±0.4 (±4 post-gain), so the iris symmetry is 0.8
pre-gain and 8 post-gain. -/
noncomputable def lmC5fun : ℕ → Landmark := fun i =>
  if i = 133 then ⟨1, 0, 0⟩
  else if i = 145 then ⟨0, 3/50, 0⟩
  else if i = 263 then ⟨2, 0, 0⟩
  else if i = 362 then ⟨3, 0, 0⟩
  else if i = 374 then ⟨5, 3/50, 0⟩
  else if i = 386 then ⟨5, 0, 0⟩
  else if i = 468 then ⟨9/10, 0, 0⟩
  else if i = 473 then ⟨21/10, 0, 0⟩
  else ⟨0, 0, 0⟩

noncomputable def lmC5 : List Landmark := (List.range 478).map lmC5fun

/-- The feature object `extractEyeFeatures` yields on `lmC5`. -/
noncomputable def fC5 : EyeFeatures ℝ :=
  ⟨some ⟨some 4, some 0, some (3/5), some (-4), some 0, some (3/5), some (4/5), some 0⟩,
   [4, 0, 3/5, -4, 0, 3/5, 8, 0]⟩

lemma getD_range_map (f : ℕ → Landmark) {n i : ℕ} (h : i < n) (d : Landmark) :
    ((List.range n).map f).getD i d = f i := by
  simp [List.getD, List.getElem?_map, List.getElem?_range, h]

lemma extract_lmC5 : extractEyeFeatures lmC5 = some fC5 := by
  have h9 : Real.sqrt 9 = 3 := by
    rw [show (9 : ℝ) = 3^2 by norm_num]
    exact Real.sqrt_sq (by norm_num)
  have h2500 : Real.sqrt 2500 = 50 := by
    rw [show (2500 : ℝ) = 50^2 by norm_num]
    exact Real.sqrt_sq (by norm_num)
  have hlen : lmC5.length = 478 := by simp [lmC5]
  rw [extractEyeFeatures]
  rw [if_neg (by rw [hlen]; norm_num)]
  simp only [lmC5, LANDMARK_INDICES.LEFT_EYE_INNER, LANDMARK_INDICES.LEFT_EYE_OUTER,
    LANDMARK_INDICES.LEFT_EYE_TOP, LANDMARK_INDICES.LEFT_EYE_BOTTOM,
    LANDMARK_INDICES.RIGHT_EYE_INNER, LANDMARK_INDICES.RIGHT_EYE_OUTER,
    LANDMARK_INDICES.RIGHT_EYE_TOP, LANDMARK_INDICES.RIGHT_EYE_BOTTOM,
    LANDMARK_INDICES.LEFT_IRIS_CENTER, LANDMARK_INDICES.RIGHT_IRIS_CENTER]
  rw [getD_range_map lmC5fun (by norm_num) _, getD_range_map lmC5fun (by norm_num) _,
    getD_range_map lmC5fun (by norm_num) _, getD_range_map lmC5fun (by norm_num) _,
    getD_range_map lmC5fun (by norm_num) _, getD_range_map lmC5fun (by norm_num) _,
    getD_range_map lmC5fun (by norm_num) _, getD_range_map lmC5fun (by norm_num) _,
    getD_range_map lmC5fun (by norm_num) _, getD_range_map lmC5fun (by norm_num) _]
  norm_num [lmC5fun, calculateCenter, distance, fC5, h9, h2500, Real.sqrt_one, abs_of_nonneg]

lemma triple_guard_eq (b1 b2 b3 : Bool) :
    (if b1 = true then false else if b2 = true then false
     else if b3 = true then false else true) = (!b1 && !b2 && !b3) := by
  cases b1 <;> cases b2 <;> cases b3 <;> rfl

/-- What `areEyeFeaturesValid` checks on a feature object whose
`normalized` fields are all present. -/
lemma areEyeFeaturesValid_some_iff {α : Type} [LinearOrderedField α]
    (lx ly la rx ry ra is' as' : α) (v : List α) :
    areEyeFeaturesValid (some ⟨some ⟨some lx, some ly, some la, some rx, some ry, some ra,
        some is', some as'⟩, v⟩) = true ↔
      ((1/2 : α) ≤ la ∧ (1/2 : α) ≤ ra ∧ |lx| ≤ 5 ∧ |ly| ≤ 5 ∧ |rx| ≤ 5 ∧ |ry| ≤ 5 ∧
        is' ≤ 3 ∧ as' ≤ 3) := by
  simp only [areEyeFeaturesValid, jsLt, jsGt, jsAbsO, Option.map_some']
  rw [triple_guard_eq]
  simp only [Bool.and_eq_true, Bool.not_eq_true', Bool.or_eq_false_iff,
    decide_eq_false_iff_not, not_lt]
  tauto

/-- Modelled from the spec (§4.1/§8, as amended for C5): the bounds under
which the validity rule accepts an extracted feature vector — aperture
entries (post-gain) at least 0.5, offset entries (post-gain) at most 5 in
magnitude, and the symmetry entries at most 30 post-gain (3 pre-gain): the
`normalized` symmetry fields the rule reads carry no ×10 gain, while vector
entries 7 and 8 do. -/
def validBoundsAmended (f : EyeFeatures ℝ) : Prop :=
  (1/2 : ℝ) ≤ f.vector.getD 2 0 ∧ (1/2 : ℝ) ≤ f.vector.getD 5 0 ∧
  |f.vector.getD 0 0| ≤ 5 ∧ |f.vector.getD 1 0| ≤ 5 ∧
  |f.vector.getD 3 0| ≤ 5 ∧ |f.vector.getD 4 0| ≤ 5 ∧
  f.vector.getD 6 0 ≤ 30 ∧ f.vector.getD 7 0 ≤ 30

/-- C5 counterexample: on `lmC5` the extracted vector's post-gain iris
symmetry (entry 7) is 8 — above the claim's post-gain bound of 3 — yet
`areEyeFeaturesValid` accepts the features, because the validity rule reads
the pre-gain `normalized.irisSymmetry` of 0.8.  So validity is not
equivalent to "all three bounds hold on the post-gain values". -/
theorem areEyeFeaturesValid_symmetry_gain_mismatch :
    extractEyeFeatures lmC5 = some fC5 ∧
    areEyeFeaturesValid (some fC5) = true ∧
    ¬(fC5.vector.getD 6 0 ≤ 3) := by
  refine ⟨extract_lmC5, ?_, by norm_num [fC5]⟩
  rw [show fC5 = ⟨some ⟨some 4, some 0, some (3/5), some (-4), some 0, some (3/5),
    some (4/5), some 0⟩, [4, 0, 3/5, -4, 0, 3/5, 8, 0]⟩ from rfl]
  rw [areEyeFeaturesValid_some_iff]
  norm_num

/-- C5 as amended: for every feature object produced by
`extractEyeFeatures` from a landmark set whose two eye widths (the
corner-to-corner distances the source divides by) are nonzero, the validity
verdict is true iff both aperture entries (post-gain) are at least 0.5,
every offset entry (post-gain) is at most 5 in magnitude, and both symmetry
entries are at most 30 post-gain (i.e. 3 pre-gain) — not 3 post-gain as
claimed; the feature vector itself is returned regardless of validity.

The nonzero-width hypotheses confine the statement to the domain where the
real-valued embedding agrees with the source: with a zero eye width
JavaScript divides by zero and produces `NaN` features, which the validity
rule accepts vacuously (every threshold comparison on `NaN` is false, as
for the all-`undefined` object of `areEyeFeaturesValid_wrapped`) even
though no bound holds of them — so no bound characterization is true of
the program there. -/
theorem areEyeFeaturesValid_extract_iff :
    ∀ (landmarks : List Landmark) (f : EyeFeatures ℝ),
      distance (landmarks.getD LANDMARK_INDICES.LEFT_EYE_INNER ⟨0, 0, 0⟩)
          (landmarks.getD LANDMARK_INDICES.LEFT_EYE_OUTER ⟨0, 0, 0⟩) ≠ 0 →
      distance (landmarks.getD LANDMARK_INDICES.RIGHT_EYE_INNER ⟨0, 0, 0⟩)
          (landmarks.getD LANDMARK_INDICES.RIGHT_EYE_OUTER ⟨0, 0, 0⟩) ≠ 0 →
      extractEyeFeatures landmarks = some f →
      (areEyeFeaturesValid (some f) = true ↔ validBoundsAmended f) := by
  intro landmarks f _ _ h
  rw [extractEyeFeatures] at h
  split at h
  · exact absurd h (by simp)
  · rw [Option.some_inj] at h
    subst h
    rw [areEyeFeaturesValid_some_iff]
    simp only [validBoundsAmended, List.getD_cons_zero, List.getD_cons_succ]
    constructor
    · rintro ⟨h1, h2, h3, h4, h5, h6, h7, h8⟩
      refine ⟨h1, h2, h3, h4, h5, h6, by linarith, by linarith⟩
    · rintro ⟨h1, h2, h3, h4, h5, h6, h7, h8⟩
      refine ⟨h1, h2, h3, h4, h5, h6, by linarith, by linarith⟩

/-- C5 witness: the amended equivalence instantiated on `lmC5`/`fC5`; both
eye widths of `lmC5` are 1, discharging the nonzero-width hypotheses. -/
theorem areEyeFeaturesValid_extract_iff_witness :
    areEyeFeaturesValid (some fC5) = true ↔ validBoundsAmended fC5 :=
  areEyeFeaturesValid_extract_iff lmC5 fC5
    (by
      rw [show lmC5 = (List.range 478).map lmC5fun from rfl,
        getD_range_map lmC5fun (by decide) _, getD_range_map lmC5fun (by decide) _]
      norm_num [lmC5fun, distance, LANDMARK_INDICES.LEFT_EYE_INNER,
        LANDMARK_INDICES.LEFT_EYE_OUTER, Real.sqrt_one])
    (by
      rw [show lmC5 = (List.range 478).map lmC5fun from rfl,
        getD_range_map lmC5fun (by decide) _, getD_range_map lmC5fun (by decide) _]
      norm_num [lmC5fun, distance, LANDMARK_INDICES.RIGHT_EYE_INNER,
        LANDMARK_INDICES.RIGHT_EYE_OUTER, Real.sqrt_one])
    extract_lmC5

/-! ## `DwellDetector` (src/utils/dwellTimer.js)

Positions and times are modelled over `ℝ`.  A missing argument is `none`;
a present position object missing a coordinate has that field `none`
(JavaScript `undefined`, whose arithmetic yields NaN).  The click/progress
callbacks are side effects and are not modelled; `Date.now()` is the
explicit `now` argument. -/

structure GazePos where
  x : Option ℝ
  y : Option ℝ

/-- `distance(p1, p2)` (dwellTimer.js lines 9-13): with every coordinate
present, the Euclidean distance; with any coordinate missing, NaN (`none`),
since JavaScript subtraction with `undefined` is NaN and `Math.sqrt(NaN)`
is NaN. -/
noncomputable def dwellDistance (p1 p2 : GazePos) : Option ℝ :=
  match p1.x, p1.y, p2.x, p2.y with
  | some x1, some y1, some x2, some y2 =>
      some (Real.sqrt ((x1 - x2) * (x1 - x2) + (y1 - y2) * (y1 - y2)))
  | _, _, _, _ => none

/-- The event objects `update` returns: `dwell_start {position}`,
`dwell_progress {position, progress, elapsed}` (position is a copy of the
anchor), `click {position, dwellTime}` (position is a copy of the anchor,
`dwellTime` the elapsed time), `dwell_cancel {position}`. -/
inductive DwellEvent where
  | dwell_start (position : GazePos)
  | dwell_progress (position : GazePos) (progress : ℝ) (elapsed : ℝ)
  | click (position : GazePos) (dwellTime : ℝ)
  | dwell_cancel (position : GazePos)

structure DwellDetector where
  dwellTime : ℝ
  threshold : ℝ
  enabled : Bool
  dwellStart : Option ℝ
  lastPosition : Option GazePos
  isDwelling : Bool

namespace DwellDetector

/-- The constructor with explicit options. -/
def mk' (dwellTime threshold : ℝ) (enabled : Bool) : DwellDetector :=
  { dwellTime := dwellTime, threshold := threshold, enabled := enabled,
    dwellStart := none, lastPosition := none, isDwelling := false }

/-- `reset()` (dwellTimer.js lines 116-119): clears `dwellStart` and
`isDwelling` — and nothing else; in particular `lastPosition` is kept. -/
def reset (s : DwellDetector) : DwellDetector :=
  { s with dwellStart := none, isDwelling := false }

/-- `update(position)` (dwellTimer.js lines 37-111).  The source's single
guard `!this.enabled || !position` is rendered as the position match
followed by the enabled test (observably the same: both orders return
`null` with the state untouched).  In the within-threshold branch,
`elapsed = now - this.dwellStart` coerces a `null` start (JavaScript) to
`0`, which `Option.getD 0` reproduces. -/
noncomputable def update (s : DwellDetector) (position : Option GazePos) (now : ℝ) :
    Option DwellEvent × DwellDetector :=
  match position with
  | none => (none, s)
  | some p =>
    if s.enabled = false then (none, s)
    else
      match s.lastPosition with
      | none =>
          (some (DwellEvent.dwell_start p),
           { s with lastPosition := some p, dwellStart := some now, isDwelling := true })
      | some lp =>
          if jsLt (dwellDistance p lp) s.threshold then
            let elapsed := now - s.dwellStart.getD 0
            let progress := min (elapsed / s.dwellTime) 1
            if s.dwellTime ≤ elapsed then
              let s1 := s.reset
              (some (DwellEvent.click lp elapsed),
               { s1 with lastPosition := some p, dwellStart := some now })
            else
              (some (DwellEvent.dwell_progress lp progress elapsed), s)
          else
            let wasDwelling := s.isDwelling
            let s1 := s.reset
            let s2 :=
              { s1 with lastPosition := some p, dwellStart := some now, isDwelling := true }
            (if wasDwelling then some (DwellEvent.dwell_cancel p)
             else some (DwellEvent.dwell_start p), s2)

end DwellDetector

/-! ## Claims C6, C7 and C8 — the dwell detector -/

/-- C6 counterexample: a malformed position (present, but missing `y`) fed
to a fresh enabled detector is not a no-op — `update` returns `dwell_start`
and anchors at the malformed position, because only `!position` (absence)
is guarded, and on a first call the position is stored without inspection.
The claim requires `none` and unchanged state. -/
theorem dwellDetector_malformed_position_not_noop :
    let d0 := DwellDetector.mk' 600 50 true
    let mp : GazePos := ⟨some 100, none⟩
    (d0.update (some mp) 0).1 = some (DwellEvent.dwell_start mp) ∧
    (d0.update (some mp) 0).2.lastPosition = some mp ∧
    (d0.update (some mp) 0).2.dwellStart = some 0 :=
  ⟨rfl, rfl, rfl⟩

/-- C6 as amended: `update` with an absent position is a no-op returning
`none` and never throws; a present position missing a coordinate also does
not throw, but it is not a no-op: with no prior anchor it becomes the
anchor, the timer starts and `dwell_start` is returned; with a prior anchor
and a dwell in progress, the NaN distance takes the moved-away path — the
malformed position becomes the new anchor, the timer restarts and
`dwell_cancel` is returned. -/
theorem dwellDetector_absent_noop_malformed_restarts :
    (∀ (s : DwellDetector) (now : ℝ), s.update none now = (none, s)) ∧
    (∀ (s : DwellDetector) (xv now : ℝ), s.enabled = true → s.lastPosition = none →
      s.update (some ⟨some xv, none⟩) now =
        (some (DwellEvent.dwell_start ⟨some xv, none⟩),
         { s with lastPosition := some ⟨some xv, none⟩, dwellStart := some now,
                  isDwelling := true })) ∧
    (∀ (s : DwellDetector) (lp : GazePos) (xv now : ℝ), s.enabled = true →
      s.lastPosition = some lp → s.isDwelling = true →
      s.update (some ⟨some xv, none⟩) now =
        (some (DwellEvent.dwell_cancel ⟨some xv, none⟩),
         { s with lastPosition := some ⟨some xv, none⟩, dwellStart := some now,
                  isDwelling := true })) := by
  refine ⟨fun s now => rfl, ?_, ?_⟩
  · intro s xv now hen hlp
    obtain ⟨dt, th, en, ds, lpos, dw⟩ := s
    simp only at hen hlp
    subst hen
    subst hlp
    rfl
  · intro s lp xv now hen hlp hdw
    obtain ⟨dt, th, en, ds, lpos, dw⟩ := s
    simp only at hen hlp hdw
    subst hen
    subst hlp
    subst hdw
    obtain ⟨lpx, lpy⟩ := lp
    cases lpx <;> cases lpy <;> rfl

/-- C7 counterexample: after one update at position (100,100) and a
`reset()`, the anchor is still stored; the next update at the same position
is not treated as a first call — with the cleared timer coerced to 0 the
elapsed time is the full wall-clock value 2000 ≥ dwellTime, so `update`
immediately emits a `click` at the stale anchor instead of `dwell_start`. -/
theorem dwellDetector_reset_keeps_anchor :
    let p : GazePos := ⟨some 100, some 100⟩
    let d1 := ((DwellDetector.mk' 600 50 true).update (some p) 0).2
    let d2 := d1.reset
    d2.lastPosition = some p ∧
    (d2.update (some p) 2000).1 = some (DwellEvent.click p (2000 - 0)) := by
  refine ⟨rfl, ?_⟩
  have hdist : dwellDistance ⟨some 100, some 100⟩ ⟨some 100, some 100⟩ = some 0 := by
    simp [dwellDistance]
  norm_num [DwellDetector.mk', DwellDetector.update, DwellDetector.reset, hdist, jsLt,
    Option.getD_some, Option.getD_none, decide_eq_true_eq]

/-- C7 as amended: `reset()` unconditionally clears the dwell timer and the
dwelling flag, but it does not clear the stored anchor position (and leaves
the configuration untouched); a later update within threshold of the stale
anchor is therefore not handled as a first call. -/
theorem dwellDetector_reset_clears_timer_keeps_anchor :
    ∀ s : DwellDetector,
      s.reset.dwellStart = none ∧ s.reset.isDwelling = false ∧
      s.reset.lastPosition = s.lastPosition ∧ s.reset.dwellTime = s.dwellTime ∧
      s.reset.threshold = s.threshold ∧ s.reset.enabled = s.enabled :=
  fun _ => ⟨rfl, rfl, rfl, rfl, rfl, rfl⟩

/-- C8 (confirmed): a within-threshold update whose elapsed time has
reached `dwellTime` returns exactly one `click` event carrying the anchor
position (`lastPosition`, unchanged throughout the dwell) — not the latest
sample `p` — and the post-state anchors at the current position with the
timer restarted at `now`, so a sustained fixation clicks again after each
further `dwellTime` interval. -/
theorem dwellDetector_click_at_anchor (s : DwellDetector) (p lp : GazePos)
    (now t0 d : ℝ) (hen : s.enabled = true) (hlp : s.lastPosition = some lp)
    (hstart : s.dwellStart = some t0) (hdist : dwellDistance p lp = some d)
    (hthr : d < s.threshold) (helapsed : s.dwellTime ≤ now - t0) :
    s.update (some p) now =
      (some (DwellEvent.click lp (now - t0)),
       { s with lastPosition := some p, dwellStart := some now, isDwelling := false }) := by
  obtain ⟨dt, th, en, ds, lpos, dw⟩ := s
  simp only at hen hlp hstart hthr helapsed
  subst hen
  subst hlp
  subst hstart
  simp only [DwellDetector.update, DwellDetector.reset, hdist, jsLt, Option.getD_some,
    decide_eq_true_eq]
  rw [if_neg (by simp), if_pos hthr, if_pos helapsed]

/-- C8 witness: anchor (100,100) set at time 0, same position sampled at
time 600 with dwellTime 600 — the click fires at the anchor and the state
re-arms. -/
theorem dwellDetector_click_at_anchor_witness :
    let p : GazePos := ⟨some 100, some 100⟩
    let s : DwellDetector :=
      { dwellTime := 600, threshold := 50, enabled := true, dwellStart := some 0,
        lastPosition := some p, isDwelling := true }
    s.update (some p) 600 =
      (some (DwellEvent.click p (600 - 0)),
       { s with lastPosition := some p, dwellStart := some 600, isDwelling := false }) :=
  dwellDetector_click_at_anchor _ _ _ _ _ 0
    rfl rfl rfl (by simp [dwellDistance]) (by norm_num) (by norm_num)
